import Mathlib

/-!
Verification of the worldWise client core: the reducer-driven entity store
(`src/contexts/CitiesContext.jsx`) and the position-resolution / view-sync
logic of the map component (`src/components/Map.jsx`).

Coordinates are modelled as exact rationals (the source manipulates JS
numbers only by comparison, `±360` wraparound and decimal rounding, all of
which are exact on the values of interest).  Query-string parameters are
`Option String` (`searchParams.get` returns `null` or a string); JS
truthiness of such a value is "present with a non-empty value".
-/

namespace WorldWise

/-- A geographic position `{lat, lng}` as stored on a city record. -/
structure GeoPos where
  lat : ℚ
  lng : ℚ
deriving Repr, DecidableEq

/-- A city entity as held in the store's `cities` array.  The reducer and
the map only ever inspect `id` and `position`; the remaining record fields
are summarised by `cityName`. -/
structure City where
  id : Int
  cityName : String
  position : GeoPos
deriving Repr, DecidableEq

/-- `StoreState` of `CitiesContext.jsx`: `{cities, isLoading, currentCity,
isLoadingCity, error}`. -/
structure StoreState where
  cities : List City
  isLoading : Bool
  currentCity : Option City
  isLoadingCity : Bool
  error : Option String
deriving Repr, DecidableEq

/-- `initialState` of `CitiesContext.jsx`. -/
def initialState : StoreState :=
  { cities := []
    isLoading := true
    currentCity := none
    isLoadingCity := false
    error := none }

/-- The action types accepted by `citiesReducer`, with their payloads.
The reducer's `default:` branch throws on any other type, so the action
space is exactly this closed enumeration. -/
inductive Action where
  | citiesLoaded (payload : List City)
  | cityCreated (payload : City)
  | cityDeleted (payload : Int)
  | loadingStarted
  | loadingFinished
  | cityLoadingStarted
  | cityLoadingFinished
  | citySelected (payload : City)
  | cityDeselected
  | errorOccurred (payload : String)
  | errorCleared
deriving Repr, DecidableEq

/-- `citiesReducer` of `CitiesContext.jsx` (lines 102-168), case by case.
`city/deleted` filters the collection by `city.id !== action.payload` and
clears `currentCity` exactly when `state.currentCity?.id === action.payload`
(a `null` selection stays `null`, since `undefined === payload` is false). -/
def citiesReducer (state : StoreState) (action : Action) : StoreState :=
  match action with
  | .citiesLoaded payload =>
      { state with cities := payload, isLoading := false, error := none }
  | .cityCreated payload =>
      { state with cities := state.cities ++ [payload], error := none }
  | .cityDeleted payload =>
      { state with
        cities := state.cities.filter (fun city => city.id ≠ payload)
        currentCity :=
          match state.currentCity with
          | some c => if c.id = payload then none else some c
          | none => none
        error := none }
  | .loadingStarted => { state with isLoading := true, error := none }
  | .loadingFinished => { state with isLoading := false }
  | .cityLoadingStarted => { state with isLoadingCity := true, error := none }
  | .cityLoadingFinished => { state with isLoadingCity := false }
  | .citySelected payload =>
      { state with currentCity := some payload, isLoadingCity := false, error := none }
  | .cityDeselected => { state with currentCity := none, error := none }
  | .errorOccurred payload =>
      { state with error := some payload, isLoading := false, isLoadingCity := false }
  | .errorCleared => { state with error := none }

/-- States reachable from `initialState` by dispatching reducer actions. -/
inductive Reachable : StoreState → Prop where
  | init : Reachable initialState
  | step {s : StoreState} (a : Action) : Reachable s → Reachable (citiesReducer s a)

/-- The selection invariant: a non-null `currentCity` references a member
of `cities` by id. -/
def selectionConsistent (s : StoreState) : Bool :=
  match s.currentCity with
  | none => true
  | some c => s.cities.any (fun city => city.id = c.id)

/-- Sample entity used in concrete runs. -/
def lisbon : City :=
  { id := 1, cityName := "Lisbon", position := { lat := 38.72, lng := -9.14 } }

/-- Second sample entity. -/
def berlin : City :=
  { id := 2, cityName := "Berlin", position := { lat := 52.53, lng := 13.38 } }

/-- The body shapes the fetch coercion distinguishes:
`Array.isArray(data) ? data : data.cities || []` — json-server may answer
with the array directly or with an object whose `cities` field may be
absent. -/
inductive FetchData where
  | arr (cities : List City)
  | obj (cities : Option (List City))
deriving Repr, DecidableEq

/-- `Array.isArray(data) ? data : data.cities || []`. -/
def coerceFetchData : FetchData → List City
  | .arr cs => cs
  | .obj (some cs) => cs
  | .obj none => []

/-- Outcome of the `GET /cities` round trip as observed inside
`fetchCities`: the awaited `fetch` rejects (network error), resolves
non-2xx (the code throws `"Failed to fetch cities"`), `res.json()` rejects
(malformed body), or a body is parsed. -/
inductive FetchOutcome where
  | networkError (msg : String)
  | httpError
  | malformedBody (msg : String)
  | success (data : FetchData)
deriving Repr, DecidableEq

/-- The message of the error a failing `fetchCities` run catches;
`none` for a successful run. -/
def fetchFailureMsg : FetchOutcome → Option String
  | .networkError msg => some msg
  | .httpError => some "Failed to fetch cities"
  | .malformedBody msg => some msg
  | .success _ => none

/-- `fetchCities` of `CitiesContext.jsx` (lines 176-192) as a state
transformer over one round trip: dispatch `loading/started`, then either
`cities/loaded` with the coerced body, or — in the `catch` — an
`error/occurred` carrying the caught error's message. -/
def fetchCities (s : StoreState) (o : FetchOutcome) : StoreState :=
  let s1 := citiesReducer s Action.loadingStarted
  match o with
  | .success data => citiesReducer s1 (Action.citiesLoaded (coerceFetchData data))
  | .networkError msg => citiesReducer s1 (Action.errorOccurred msg)
  | .httpError => citiesReducer s1 (Action.errorOccurred "Failed to fetch cities")
  | .malformedBody msg => citiesReducer s1 (Action.errorOccurred msg)

/-- Outcome of the `POST /cities` round trip as observed inside
`createCity`. -/
inductive CreateOutcome where
  | networkError (msg : String)
  | httpError
  | malformedBody (msg : String)
  | success (data : City)
deriving Repr, DecidableEq

/-- The message of the error a failing `createCity` run catches. -/
def createFailureMsg : CreateOutcome → Option String
  | .networkError msg => some msg
  | .httpError => some "Failed to create city"
  | .malformedBody msg => some msg
  | .success _ => none

/-- `createCity` of `CitiesContext.jsx` (lines 203-225): on success
dispatch `city/created` with the server's record and return it; in the
`catch` dispatch `error/occurred` and re-throw (modelled as
`Except.error`). -/
def createCity (s : StoreState) (o : CreateOutcome) : StoreState × Except String City :=
  match o with
  | .success data => (citiesReducer s (Action.cityCreated data), Except.ok data)
  | .networkError msg => (citiesReducer s (Action.errorOccurred msg), Except.error msg)
  | .httpError =>
      (citiesReducer s (Action.errorOccurred "Failed to create city"),
        Except.error "Failed to create city")
  | .malformedBody msg => (citiesReducer s (Action.errorOccurred msg), Except.error msg)

/-- `selectionConsistent` unfolded to a membership statement. -/
theorem selectionConsistent_iff (s : StoreState) :
    selectionConsistent s = true ↔
      ∀ c, s.currentCity = some c → ∃ x ∈ s.cities, x.id = c.id := by
  cases h : s.currentCity with
  | none => simp [selectionConsistent, h]
  | some c => simp [selectionConsistent, h, List.any_eq_true]

/-- The state reached by loading `[lisbon]`, selecting `lisbon`, then
re-loading an empty collection: the selection dangles. -/
def danglingState : StoreState :=
  citiesReducer
    (citiesReducer (citiesReducer initialState (Action.citiesLoaded [lisbon]))
      (Action.citySelected lisbon))
    (Action.citiesLoaded [])

/-- C2 counterexample: a state reachable from the initial state by reducer
actions (`cities/loaded [lisbon]`, `city/selected lisbon`,
`cities/loaded []`) in which `currentCity` is non-null yet no entity with
its id is a member of `cities` — `cities/loaded` keeps the previous
selection while replacing the whole collection. -/
theorem selection_invariant_violated_reachable :
    Reachable danglingState ∧ danglingState.currentCity ≠ none ∧
      selectionConsistent danglingState = false :=
  ⟨by unfold danglingState
      exact Reachable.step _ (Reachable.step _ (Reachable.step _ Reachable.init)),
   by decide, by decide⟩

/-- C2 (amended): every reducer transition other than `cities/loaded`
preserves the selection invariant, provided `city/selected` carries a
member of the current collection (as the provider's lookups guarantee);
in particular `city/deleted` of the referenced entity clears the selection
in the same transition.  `cities/loaded` itself can leave the selection
dangling (see the counterexample). -/
theorem selectionConsistent_preserved (s : StoreState) (a : Action)
    (hinv : selectionConsistent s = true)
    (hload : ∀ p, a ≠ Action.citiesLoaded p)
    (hsel : ∀ c, a = Action.citySelected c → c ∈ s.cities) :
    selectionConsistent (citiesReducer s a) = true := by
  rw [selectionConsistent_iff] at hinv ⊢
  cases a with
  | citiesLoaded p => exact absurd rfl (hload p)
  | cityCreated c =>
      intro cur hcur
      simp only [citiesReducer] at hcur ⊢
      obtain ⟨x, hx, hid⟩ := hinv cur hcur
      exact ⟨x, List.mem_append_left _ hx, hid⟩
  | cityDeleted pid =>
      intro cur hcur
      simp only [citiesReducer] at hcur ⊢
      rcases h : s.currentCity with _ | c
      · simp [h] at hcur
      · by_cases hid : c.id = pid
        · simp [h, hid] at hcur
        · simp [h, hid] at hcur
          subst hcur
          obtain ⟨x, hx, hxid⟩ := hinv c h
          refine ⟨x, List.mem_filter.mpr ⟨hx, ?_⟩, hxid⟩
          simp [hxid, hid]
  | citySelected c =>
      intro cur hcur
      simp only [citiesReducer, Option.some.injEq] at hcur
      subst hcur
      exact ⟨c, hsel c rfl, rfl⟩
  | cityDeselected => intro cur hcur; simp [citiesReducer] at hcur
  | loadingStarted =>
      intro cur hcur; simp only [citiesReducer] at hcur ⊢; exact hinv cur hcur
  | loadingFinished =>
      intro cur hcur; simp only [citiesReducer] at hcur ⊢; exact hinv cur hcur
  | cityLoadingStarted =>
      intro cur hcur; simp only [citiesReducer] at hcur ⊢; exact hinv cur hcur
  | cityLoadingFinished =>
      intro cur hcur; simp only [citiesReducer] at hcur ⊢; exact hinv cur hcur
  | errorOccurred msg =>
      intro cur hcur; simp only [citiesReducer] at hcur ⊢; exact hinv cur hcur
  | errorCleared =>
      intro cur hcur; simp only [citiesReducer] at hcur ⊢; exact hinv cur hcur

/-- C2 amended-claim witness: deleting a non-selected entity from a
consistent concrete state keeps the invariant. -/
theorem selectionConsistent_preserved_witness :
    selectionConsistent
      (citiesReducer
        { initialState with cities := [lisbon, berlin], currentCity := some berlin }
        (Action.cityDeleted 1)) = true :=
  selectionConsistent_preserved _ _ (by decide)
    (by intro p h; cases h) (by intro c h; cases h)

/-- C3: every failing `fetchCities` run — network rejection, non-2xx
response, malformed body — leaves `cities` at its previous value and
records the caught error's message in `error`. -/
theorem fetchCities_failure_preserves_cities (s : StoreState) (o : FetchOutcome)
    (msg : String) (h : fetchFailureMsg o = some msg) :
    (fetchCities s o).cities = s.cities ∧ (fetchCities s o).error = some msg := by
  cases o <;> simp_all [fetchCities, fetchFailureMsg, citiesReducer]

/-- C3 witness: a concrete network failure against a one-entity store. -/
theorem fetchCities_failure_preserves_cities_witness :
    (fetchCities { initialState with cities := [lisbon] }
        (FetchOutcome.networkError "boom")).cities = [lisbon] ∧
    (fetchCities { initialState with cities := [lisbon] }
        (FetchOutcome.networkError "boom")).error = some "boom" :=
  fetchCities_failure_preserves_cities _ _ _ rfl

/-- C4: every failing `createCity` run dispatches `error/occurred`,
re-throws to the immediate caller, and leaves the collection exactly as it
was — no optimistic insert. -/
theorem createCity_failure_preserves_cities (s : StoreState) (o : CreateOutcome)
    (msg : String) (h : createFailureMsg o = some msg) :
    (createCity s o).1.cities = s.cities ∧
    (createCity s o).1.error = some msg ∧
    (createCity s o).2 = Except.error msg := by
  cases o <;> simp_all [createCity, createFailureMsg, citiesReducer]

/-- C4 witness: a concrete non-2xx POST against a one-entity store. -/
theorem createCity_failure_preserves_cities_witness :
    (createCity { initialState with cities := [lisbon] } CreateOutcome.httpError).1.cities
        = [lisbon] ∧
    (createCity { initialState with cities := [lisbon] } CreateOutcome.httpError).1.error
        = some "Failed to create city" ∧
    (createCity { initialState with cities := [lisbon] } CreateOutcome.httpError).2
        = Except.error "Failed to create city" :=
  createCity_failure_preserves_cities _ _ _ rfl

/-- C5: the `city/deleted` transition removes every entity carrying the
deleted id; it clears the selection exactly when the selected city carried
that id and keeps it otherwise. -/
theorem cityDeleted_removes_and_clears (s : StoreState) (pid : Int) :
    (∀ c ∈ (citiesReducer s (Action.cityDeleted pid)).cities, c.id ≠ pid) ∧
    (∀ c, s.currentCity = some c → c.id = pid →
      (citiesReducer s (Action.cityDeleted pid)).currentCity = none) ∧
    (∀ c, s.currentCity = some c → c.id ≠ pid →
      (citiesReducer s (Action.cityDeleted pid)).currentCity = some c) := by
  refine ⟨?_, ?_, ?_⟩
  · intro c hc
    simp only [citiesReducer, List.mem_filter, decide_eq_true_eq] at hc
    exact hc.2
  · intro c hc hid
    simp [citiesReducer, hc, hid]
  · intro c hc hid
    simp [citiesReducer, hc, hid]

/-- C5 witness: deleting the selected entity id 1 from a two-entity store
clears the selection; its entity is gone from the collection. -/
theorem cityDeleted_removes_and_clears_witness :
    (citiesReducer { initialState with cities := [lisbon, berlin], currentCity := some lisbon }
      (Action.cityDeleted 1)).currentCity = none :=
  (cityDeleted_removes_and_clears _ 1).2.1 lisbon rfl rfl

/-- JS truthiness of a `searchParams.get` result: `null` and the empty
string are falsy; any other string is truthy. -/
def truthyStr : Option String → Bool
  | none => false
  | some s => s ≠ ""

/-- `mapPosition` of `Map.jsx` (lines 94-108): query-string coordinates
first; the fixed default `[40, 0]` on the cities page; else the
geolocation fix if one exists; else the default.  The JS `Number` string
conversion is abstracted as the `parseNum` argument. -/
def mapPosition (parseNum : String → ℚ) (maplat maplng : Option String)
    (pathname : String) (geolocationPosition : Option GeoPos) : ℚ × ℚ :=
  if truthyStr maplat && truthyStr maplng then
    (parseNum (maplat.getD ""), parseNum (maplng.getD ""))
  else if pathname = "/app/cities" then (40, 0)
  else
    match geolocationPosition with
    | some p => (p.lat, p.lng)
    | none => (40, 0)

/-- Result of one run of the geolocation-sync effect of `Map.jsx`: the
`setSearchParams` write, the `navigate` call (each `none` when the call
was not made), and `geoRequestedRef.current` after the run. -/
structure GeoSyncResult where
  wroteParams : Option GeoPos
  navigated : Option GeoPos
  geoRequestedAfter : Bool
deriving Repr, DecidableEq

/-- The geolocation-sync effect of `Map.jsx` (lines 111-125): only on the
form page, when a fix exists and (the flag is set or no query coordinate
is truthy), write the fix to the query string, navigate to the form
carrying the fix exactly when the flag is set, and reset the flag. -/
def geoSyncEffect (pathname : String) (geolocationPosition : Option GeoPos)
    (maplat maplng : Option String) (geoRequested : Bool) : GeoSyncResult :=
  match geolocationPosition with
  | some fix =>
      if pathname = "/app/form" ∧
          (geoRequested = true ∨ (truthyStr maplat = false ∧ truthyStr maplng = false)) then
        { wroteParams := some fix
          navigated := if geoRequested then some fix else none
          geoRequestedAfter := false }
      else
        { wroteParams := none, navigated := none, geoRequestedAfter := geoRequested }
  | none => { wroteParams := none, navigated := none, geoRequestedAfter := geoRequested }

/-- The `while (lng > 180) lng -= 360` loop of `DetectClick`. -/
def wrapDown (lng : ℚ) : ℚ :=
  if h : 180 < lng then wrapDown (lng - 360) else lng
termination_by (⌈lng⌉).toNat
decreasing_by
  have h1 : (180 : ℤ) < ⌈lng⌉ := by
    rw [Int.lt_ceil]; push_cast; linarith
  have h2 : ⌈lng - 360⌉ = ⌈lng⌉ - 360 := by
    rw [show (360 : ℚ) = ((360 : ℤ) : ℚ) by norm_num, Int.ceil_sub_int]
  omega

/-- The `while (lng < -180) lng += 360` loop of `DetectClick`. -/
def wrapUp (lng : ℚ) : ℚ :=
  if h : lng < -180 then wrapUp (lng + 360) else lng
termination_by (-⌊lng⌋).toNat
decreasing_by
  have h1 : ⌊lng⌋ < -180 := by
    rw [Int.floor_lt]; push_cast; linarith
  have h2 : ⌊lng + 360⌋ = ⌊lng⌋ + 360 := by
    rw [show (360 : ℚ) = ((360 : ℤ) : ℚ) by norm_num, Int.floor_add_int]
  omega

/-- The longitude-normalization block of `DetectClick` (`Map.jsx` lines
260-280) as a function: out-of-range longitudes are wrapped by repeated
±360, in-range ones pass through untouched. -/
def normalizeLng (lng : ℚ) : ℚ :=
  if lng < -180 ∨ 180 < lng then wrapUp (wrapDown lng) else lng

/-- `Number(x.toFixed(6))`: rounding to 6 decimal places; on a tie the
toFixed specification picks the larger candidate. -/
def round6 (x : ℚ) : ℚ := (⌊x * 1000000 + 1 / 2⌋ : ℤ) / 1000000

/-- Effects of one `DetectClick` click-handler run: the `setSearchParams`
write, the `navigate` call (each `none` when not made), and whether an
alert was raised. -/
structure ClickEffects where
  wroteParams : Option (ℚ × ℚ)
  navigated : Option (ℚ × ℚ)
  alerted : Bool
deriving Repr, DecidableEq

/-- The `DetectClick` click handler of `Map.jsx` (lines 232-300): reject
events without coordinates; reject latitudes outside [-90, 90]; wrap
out-of-range longitudes by ±360 and reject if still out of range; round
both coordinates to 6 decimals; then either update the query string (when
already on the form page) or navigate to the form. -/
def detectClick (pathname : String) (latlng : Option (ℚ × ℚ)) : ClickEffects :=
  match latlng with
  | none => { wroteParams := none, navigated := none, alerted := true }
  | some (lat, lng) =>
      if lat < -90 ∨ 90 < lat then
        { wroteParams := none, navigated := none, alerted := true }
      else
        let lngStep : Option ℚ :=
          if lng < -180 ∨ 180 < lng then
            let l := wrapUp (wrapDown lng)
            if l < -180 ∨ 180 < l then none else some l
          else some lng
        match lngStep with
        | none => { wroteParams := none, navigated := none, alerted := true }
        | some lng2 =>
            if pathname = "/app/form" then
              { wroteParams := some (round6 lat, round6 lng2), navigated := none
                alerted := false }
            else
              { wroteParams := none, navigated := some (round6 lat, round6 lng2)
                alerted := false }

/-- Unfolding `wrapDown` when the guard fails. -/
theorem wrapDown_eq_self (lng : ℚ) (h : ¬ 180 < lng) : wrapDown lng = lng := by
  unfold wrapDown
  exact dif_neg h

/-- Unfolding `wrapDown` one step when the guard holds. -/
theorem wrapDown_step (lng : ℚ) (h : 180 < lng) : wrapDown lng = wrapDown (lng - 360) := by
  conv_lhs => unfold wrapDown
  exact dif_pos h

/-- Unfolding `wrapUp` when the guard fails. -/
theorem wrapUp_eq_self (lng : ℚ) (h : ¬ lng < -180) : wrapUp lng = lng := by
  unfold wrapUp
  exact dif_neg h

/-- Unfolding `wrapUp` one step when the guard holds. -/
theorem wrapUp_step (lng : ℚ) (h : lng < -180) : wrapUp lng = wrapUp (lng + 360) := by
  conv_lhs => unfold wrapUp
  exact dif_pos h

/-- The subtraction loop lands in (-180, 180] whenever it runs. -/
theorem wrapDown_mem (lng : ℚ) : 180 < lng → -180 < wrapDown lng ∧ wrapDown lng ≤ 180 := by
  induction lng using wrapDown.induct with
  | case1 lng h ih =>
      intro _
      rw [wrapDown_step lng h]
      by_cases h2 : 180 < lng - 360
      · exact ih h2
      · rw [wrapDown_eq_self _ h2]
        constructor <;> linarith [not_lt.mp h2]
  | case2 lng h => intro hlt; exact absurd hlt h

/-- The addition loop lands in [-180, 180) whenever it runs. -/
theorem wrapUp_mem (lng : ℚ) : lng < -180 → -180 ≤ wrapUp lng ∧ wrapUp lng < 180 := by
  induction lng using wrapUp.induct with
  | case1 lng h ih =>
      intro _
      rw [wrapUp_step lng h]
      by_cases h2 : lng + 360 < -180
      · exact ih h2
      · rw [wrapUp_eq_self _ h2]
        constructor <;> linarith [not_lt.mp h2]
  | case2 lng h => intro hlt; exact absurd hlt h

/-- Both loops composed always land in [-180, 180]. -/
theorem wrap_bounds (lng : ℚ) :
    -180 ≤ wrapUp (wrapDown lng) ∧ wrapUp (wrapDown lng) ≤ 180 := by
  by_cases h : 180 < lng
  · obtain ⟨h1, h2⟩ := wrapDown_mem lng h
    rw [wrapUp_eq_self _ (by linarith)]
    exact ⟨le_of_lt h1, h2⟩
  · rw [wrapDown_eq_self _ h]
    by_cases h3 : lng < -180
    · obtain ⟨h1, h2⟩ := wrapUp_mem lng h3
      exact ⟨h1, le_of_lt h2⟩
    · rw [wrapUp_eq_self _ h3]
      exact ⟨not_lt.mp h3, not_lt.mp h⟩

/-- C1: when both query coordinates are present (carry a truthy, i.e.
non-empty, value) `mapPosition` returns the converted query coordinates
regardless of the fix and of the route context — never the fix; with no
query pair, a fix, and a context other than the cities page it returns
the fix; with no query pair on the cities page, or with no source at all,
it returns the fixed default `[40, 0]`. -/
theorem mapPosition_priority (parseNum : String → ℚ) (maplat maplng : Option String)
    (pathname : String) (fix : Option GeoPos) :
    (truthyStr maplat = true → truthyStr maplng = true →
      mapPosition parseNum maplat maplng pathname fix
          = (parseNum (maplat.getD ""), parseNum (maplng.getD "")) ∧
      mapPosition parseNum maplat maplng pathname fix
          = mapPosition parseNum maplat maplng pathname none) ∧
    (¬(truthyStr maplat = true ∧ truthyStr maplng = true) →
      pathname ≠ "/app/cities" →
      ∀ p, fix = some p →
        mapPosition parseNum maplat maplng pathname fix = (p.lat, p.lng)) ∧
    (¬(truthyStr maplat = true ∧ truthyStr maplng = true) →
      pathname = "/app/cities" →
      mapPosition parseNum maplat maplng pathname fix = (40, 0)) ∧
    (¬(truthyStr maplat = true ∧ truthyStr maplng = true) → fix = none →
      mapPosition parseNum maplat maplng pathname fix = (40, 0)) := by
  refine ⟨?_, ?_, ?_, ?_⟩
  · intro h1 h2
    constructor <;> simp [mapPosition, h1, h2]
  · intro hq hpath p hp
    have hb : (truthyStr maplat && truthyStr maplng) = false := by
      rw [← Bool.not_eq_true, Bool.and_eq_true]; exact hq
    simp [mapPosition, hb, hpath, hp]
  · intro hq hpath
    have hb : (truthyStr maplat && truthyStr maplng) = false := by
      rw [← Bool.not_eq_true, Bool.and_eq_true]; exact hq
    simp [mapPosition, hb, hpath]
  · intro hq hfix
    have hb : (truthyStr maplat && truthyStr maplng) = false := by
      rw [← Bool.not_eq_true, Bool.and_eq_true]; exact hq
    by_cases hp : pathname = "/app/cities" <;> simp [mapPosition, hb, hfix, hp]

/-- A stub for the JS `Number` conversion, used only to instantiate
`mapPosition_priority` at a concrete input. -/
def parseNumStub : String → ℚ := fun _ => 7

/-- C1 witness: with both query coordinates present on the cities page and
a fix available, the query coordinates win. -/
theorem mapPosition_priority_witness :
    mapPosition parseNumStub (some "38") (some "-9") "/app/cities"
        (some { lat := 1, lng := 2 }) = (7, 7) :=
  ((mapPosition_priority parseNumStub (some "38") (some "-9") "/app/cities"
      (some { lat := 1, lng := 2 })).1 (by decide) (by decide)).1

/-- C7 counterexample: with the explicit-request flag set and a fix
arriving while the route is the cities page (not the form page), the
effect writes nothing, issues no navigation, and does not even reset the
flag — contradicting "whenever the flag is set and a fix arrives, the fix
is written and a navigation is issued". -/
theorem geoSync_offFormPage_counterexample :
    geoSyncEffect "/app/cities" (some { lat := 10, lng := 20 }) none none true
      = { wroteParams := none, navigated := none, geoRequestedAfter := true } := by
  decide

/-- C7 (amended): restricted to the form page — a fix is written into
query state only if the flag is set or no query coordinate is truthy;
whenever the flag is set and a fix arrives on the form page, the fix is
written and a navigation to the form carrying the fix is issued; and
whenever the fix is consumed, the flag ends up reset.  Off the form page
the effect does nothing (see the counterexample). -/
theorem geoSync_form_behavior (pathname : String) (fix : Option GeoPos)
    (maplat maplng : Option String) (flag : Bool) :
    ((geoSyncEffect pathname fix maplat maplng flag).wroteParams ≠ none →
      flag = true ∨ (truthyStr maplat = false ∧ truthyStr maplng = false)) ∧
    (flag = true → ∀ p, fix = some p → pathname = "/app/form" →
      geoSyncEffect pathname fix maplat maplng flag
        = { wroteParams := some p, navigated := some p, geoRequestedAfter := false }) ∧
    ((geoSyncEffect pathname fix maplat maplng flag).wroteParams ≠ none →
      (geoSyncEffect pathname fix maplat maplng flag).geoRequestedAfter = false) := by
  rcases fix with _ | p
  · refine ⟨?_, ?_, ?_⟩
    · simp [geoSyncEffect]
    · intro _ q hq
      exact absurd hq (by simp)
    · simp [geoSyncEffect]
  · by_cases hc : pathname = "/app/form" ∧
        (flag = true ∨ (truthyStr maplat = false ∧ truthyStr maplng = false))
    · refine ⟨fun _ => hc.2, ?_, ?_⟩
      · intro hflag q hq hform
        obtain rfl : p = q := Option.some.inj hq
        simp only [geoSyncEffect]
        rw [if_pos hc]
        simp [hflag]
      · intro _
        simp only [geoSyncEffect]
        rw [if_pos hc]
    · have hnone : (geoSyncEffect pathname (some p) maplat maplng flag).wroteParams = none := by
        simp only [geoSyncEffect]
        rw [if_neg hc]
      refine ⟨fun hw => absurd hnone hw, ?_, fun hw => absurd hnone hw⟩
      intro hflag q hq hform
      exact absurd ⟨hform, Or.inl hflag⟩ hc

/-- C7 amended-claim witness: flag set, fix `(10, 20)` arriving on the
form page — the fix is written, a navigation carries it, the flag resets. -/
theorem geoSync_form_behavior_witness :
    geoSyncEffect "/app/form" (some { lat := 10, lng := 20 }) none none true
      = { wroteParams := some { lat := 10, lng := 20 }
          navigated := some { lat := 10, lng := 20 }
          geoRequestedAfter := false } :=
  (geoSync_form_behavior "/app/form" (some { lat := 10, lng := 20 }) none none true).2.1
    rfl { lat := 10, lng := 20 } rfl rfl

/-- For a valid latitude, `detectClick` normalizes the longitude, rounds
both coordinates to 6 decimals, and writes them to the query string on
the form page or into a navigation elsewhere; the post-normalization
double-check never fires. -/
theorem detectClick_eq (pathname : String) (lat lng : ℚ)
    (h : ¬(lat < -90 ∨ 90 < lat)) :
    detectClick pathname (some (lat, lng)) =
      if pathname = "/app/form" then
        { wroteParams := some (round6 lat, round6 (normalizeLng lng))
          navigated := none, alerted := false }
      else
        { wroteParams := none
          navigated := some (round6 lat, round6 (normalizeLng lng)), alerted := false } := by
  by_cases hr : lng < -180 ∨ 180 < lng
  · have hb := wrap_bounds lng
    have hok : ¬(wrapUp (wrapDown lng) < -180 ∨ 180 < wrapUp (wrapDown lng)) := by
      rintro (hx | hx) <;> linarith [hb.1, hb.2]
    have hnorm : normalizeLng lng = wrapUp (wrapDown lng) := by
      unfold normalizeLng; rw [if_pos hr]
    simp only [detectClick]
    rw [if_neg h, if_pos hr, if_neg hok, hnorm]
  · have hnorm : normalizeLng lng = lng := by unfold normalizeLng; rw [if_neg hr]
    simp only [detectClick]
    rw [if_neg h, if_neg hr, hnorm]

/-- C8: the click handler's longitude normalization lands in [-180, 180]
for every input, maps 190 to -170, -200 to 160, and 45 to 45, passes
in-range values through unchanged, and the handler writes the 6-decimal
rounding of the normalized coordinates to the query string or the
navigation. -/
theorem normalizeLng_spec :
    (∀ lng : ℚ, -180 ≤ normalizeLng lng ∧ normalizeLng lng ≤ 180) ∧
    normalizeLng 190 = -170 ∧
    normalizeLng (-200) = 160 ∧
    normalizeLng 45 = 45 ∧
    (∀ lng : ℚ, -180 ≤ lng → lng ≤ 180 → normalizeLng lng = lng) ∧
    (∀ pathname : String, ∀ lat lng : ℚ, -90 ≤ lat → lat ≤ 90 →
      detectClick pathname (some (lat, lng)) =
        if pathname = "/app/form" then
          { wroteParams := some (round6 lat, round6 (normalizeLng lng))
            navigated := none, alerted := false }
        else
          { wroteParams := none
            navigated := some (round6 lat, round6 (normalizeLng lng)), alerted := false }) := by
  refine ⟨?_, ?_, ?_, ?_, ?_, ?_⟩
  · intro lng
    by_cases hr : lng < -180 ∨ 180 < lng
    · have : normalizeLng lng = wrapUp (wrapDown lng) := by
        unfold normalizeLng; rw [if_pos hr]
      rw [this]
      exact wrap_bounds lng
    · have : normalizeLng lng = lng := by unfold normalizeLng; rw [if_neg hr]
      rw [this]
      rcases not_or.mp hr with ⟨h1, h2⟩
      exact ⟨not_lt.mp h1, not_lt.mp h2⟩
  · have h0 : normalizeLng 190 = wrapUp (wrapDown 190) := by
      unfold normalizeLng; rw [if_pos (by norm_num)]
    rw [h0, wrapDown_step _ (by norm_num), show (190 : ℚ) - 360 = -170 by norm_num,
      wrapDown_eq_self _ (by norm_num), wrapUp_eq_self _ (by norm_num)]
  · have h0 : normalizeLng (-200) = wrapUp (wrapDown (-200)) := by
      unfold normalizeLng; rw [if_pos (by norm_num)]
    rw [h0, wrapDown_eq_self _ (by norm_num), wrapUp_step _ (by norm_num),
      show (-200 : ℚ) + 360 = 160 by norm_num, wrapUp_eq_self _ (by norm_num)]
  · unfold normalizeLng
    rw [if_neg (by norm_num)]
  · intro lng h1 h2
    have hr : ¬(lng < -180 ∨ 180 < lng) := by rintro (h | h) <;> linarith
    unfold normalizeLng
    rw [if_neg hr]
  · intro pathname lat lng h1 h2
    exact detectClick_eq pathname lat lng (by rintro (h | h) <;> linarith)

/-- C8 witness: a click at latitude 10, longitude 190 away from the form
page navigates with the longitude wrapped to -170 (6-decimal rounding is
the identity on these values). -/
theorem normalizeLng_spec_witness :
    detectClick "/app/cities" (some (10, 190)) =
      { wroteParams := none, navigated := some (10, -170), alerted := false } := by
  rw [normalizeLng_spec.2.2.2.2.2 "/app/cities" 10 190 (by norm_num) (by norm_num),
    if_neg (by decide), normalizeLng_spec.2.1]
  have hlat : round6 10 = 10 := by
    have h : ⌊(10 : ℚ) * 1000000 + 1 / 2⌋ = 10000000 := by
      rw [Int.floor_eq_iff]
      norm_num
    unfold round6
    rw [h]
    norm_num
  have hlng : round6 (-170) = -170 := by
    have h : ⌊(-170 : ℚ) * 1000000 + 1 / 2⌋ = -170000000 := by
      rw [Int.floor_eq_iff]
      norm_num
    unfold round6
    rw [h]
    norm_num
  rw [hlat, hlng]

/-- C9: a click whose latitude lies outside [-90, 90] is rejected with an
alert: nothing is written to the query string and no navigation is
issued (the handler never touches the entity store at all). -/
theorem detectClick_rejects_bad_latitude (pathname : String) (lat lng : ℚ)
    (h : lat < -90 ∨ 90 < lat) :
    detectClick pathname (some (lat, lng)) =
      { wroteParams := none, navigated := none, alerted := true } := by
  simp only [detectClick]
  rw [if_pos h]

/-- C9 witness: latitude 91 is rejected without any write or navigation. -/
theorem detectClick_rejects_bad_latitude_witness :
    detectClick "/app/cities" (some (91, 0)) =
      { wroteParams := none, navigated := none, alerted := true } :=
  detectClick_rejects_bad_latitude "/app/cities" 91 0 (by norm_num)

/-- A Leaflet `LatLngBounds`-style bounding region. -/
structure MapBounds where
  minLat : ℚ
  maxLat : ℚ
  minLng : ℚ
  maxLng : ℚ
deriving Repr, DecidableEq

/-- Extending a bounding region by one `[lat, lng]` point. -/
def extendBounds (b : MapBounds) (p : ℚ × ℚ) : MapBounds :=
  { minLat := min b.minLat p.1, maxLat := max b.maxLat p.1
    minLng := min b.minLng p.2, maxLng := max b.maxLng p.2 }

/-- `L.latLngBounds` over a list of points: undefined for the empty list,
otherwise the minimal region covering every point. -/
def latLngBounds : List (ℚ × ℚ) → Option MapBounds
  | [] => none
  | p :: ps =>
      some (ps.foldl extendBounds
        { minLat := p.1, maxLat := p.1, minLng := p.2, maxLng := p.2 })

/-- The `map.fitBounds` command with the options `FitBounds` passes. -/
structure FitBoundsCmd where
  bounds : MapBounds
  padding : ℚ × ℚ
  maxZoom : ℚ
deriving Repr, DecidableEq

/-- The `FitBounds` effect of `Map.jsx` (lines 208-230): only on the
cities list page and only for a non-empty collection, fit the viewport to
the bounds of all city positions with padding [50, 50] and maxZoom 6;
otherwise issue no viewport command. -/
def fitBoundsEffect (cities : List City) (pathname : String) : Option FitBoundsCmd :=
  if pathname = "/app/cities" ∧ cities.length > 0 then
    match latLngBounds (cities.map fun c => (c.position.lat, c.position.lng)) with
    | some b => some { bounds := b, padding := (50, 50), maxZoom := 6 }
    | none => none
  else none

/-- C10: in the browse-all context the fit-bounds effect commands the
viewport exactly when the collection is non-empty; the empty collection
(and any other context) issues no command, so after deleting the last
entity the viewport is untouched and no bounds over zero positions are
ever used. -/
theorem fitBounds_only_nonempty (cities : List City) (pathname : String) :
    fitBoundsEffect [] pathname = none ∧
    (pathname ≠ "/app/cities" → fitBoundsEffect cities pathname = none) ∧
    (cities ≠ [] →
      ∃ b, latLngBounds (cities.map fun c => (c.position.lat, c.position.lng)) = some b ∧
        fitBoundsEffect cities "/app/cities"
          = some { bounds := b, padding := (50, 50), maxZoom := 6 }) ∧
    (fitBoundsEffect cities "/app/cities" = none ↔ cities = []) := by
  have hne : cities ≠ [] →
      ∃ b, latLngBounds (cities.map fun c => (c.position.lat, c.position.lng)) = some b ∧
        fitBoundsEffect cities "/app/cities"
          = some { bounds := b, padding := (50, 50), maxZoom := 6 } := by
    intro h
    rcases cities with _ | ⟨c, cs⟩
    · exact absurd rfl h
    · exact ⟨_, rfl, by simp [fitBoundsEffect, latLngBounds]⟩
  refine ⟨by simp [fitBoundsEffect], fun h => by simp [fitBoundsEffect, h], hne, ?_, ?_⟩
  · intro h
    by_contra hcne
    obtain ⟨b, _, hsome⟩ := hne hcne
    rw [h] at hsome
    cases hsome
  · intro h
    subst h
    simp [fitBoundsEffect]

/-- C10 witness: off the cities page no command is issued even for a
non-empty collection; implicitly instantiating the theorem at a concrete
store. -/
theorem fitBounds_only_nonempty_witness :
    fitBoundsEffect [lisbon] "/app/form" = none :=
  (fitBounds_only_nonempty [lisbon] "/app/form").2.1 (by decide)

/-- A `useCallback` memo cell: the dependency array captured at the last
recomputation and the identity of the cached closure.  Function identities
are modelled as tags drawn from `Nat`; a render creating a closure gives
it a tag never used before. -/
structure CallbackCell (δ : Type) where
  deps : δ
  fnId : Nat
deriving Repr, DecidableEq

/-- React's `useCallback`: keep the cached closure when the dependency
array equals the previous one, otherwise cache a freshly created closure. -/
def useCallback {δ : Type} [DecidableEq δ] (prev : Option (CallbackCell δ))
    (deps : δ) (freshId : Nat) : CallbackCell δ :=
  match prev with
  | some cell => if cell.deps = deps then cell else { deps := deps, fnId := freshId }
  | none => { deps := deps, fnId := freshId }

/-- `useCallback` keeps the cached value when the dependencies match. -/
theorem useCallback_keep {δ : Type} [DecidableEq δ] (cell : CallbackCell δ)
    (deps : δ) (freshId : Nat) (h : cell.deps = deps) :
    useCallback (some cell) deps freshId = cell := by
  simp [useCallback, h]

/-- The state-dependent memoized callbacks of one `CitiesProvider` render:
`getCity` (lines 248-253 of `CitiesContext.jsx`), `handleCityClick` and
`setSelectedCityId` are each declared with the dependency array
`[cities]`.  (`createCity`, `deleteCity` and `fetchCities` close over
nothing and keep their first identity forever.) -/
structure ProviderCells where
  getCity : CallbackCell (List City)
  handleCityClick : CallbackCell (List City)
  setSelectedCityId : CallbackCell (List City)
deriving Repr, DecidableEq

/-- One render of `CitiesProvider`: each callback is re-created only when
its `[cities]` dependency array changed; `fresh` supplies the identities
of any closures created by this render. -/
def renderProvider (prev : Option ProviderCells) (s : StoreState) (fresh : Nat) :
    ProviderCells :=
  { getCity := useCallback (prev.map ProviderCells.getCity) s.cities fresh
    handleCityClick :=
      useCallback (prev.map ProviderCells.handleCityClick) s.cities (fresh + 1)
    setSelectedCityId :=
      useCallback (prev.map ProviderCells.setSelectedCityId) s.cities (fresh + 2) }

/-- Folding a sequence of renders over successive states. -/
def renderSequence (start : ProviderCells) (renders : List (StoreState × Nat)) :
    ProviderCells :=
  renders.foldl (fun cells r => renderProvider (some cells) r.1 r.2) start

/-- C6: across any sequence of renders whose states all carry the same
`cities` value the provider started from, `getCity`, `handleCityClick`
and `setSelectedCityId` keep their function identities (the whole memo
cells are unchanged); and a render recomputes `getCity` only when
`cities` itself differs from the captured dependency. -/
theorem getCity_referential_stability (c0 : List City) (start : ProviderCells)
    (renders : List (StoreState × Nat))
    (hg : start.getCity.deps = c0) (hh : start.handleCityClick.deps = c0)
    (hs : start.setSelectedCityId.deps = c0)
    (hr : ∀ r ∈ renders, r.1.cities = c0) :
    renderSequence start renders = start ∧
    (∀ prev s fresh, (renderProvider (some prev) s fresh).getCity.fnId ≠ prev.getCity.fnId →
      s.cities ≠ prev.getCity.deps) := by
  constructor
  · have key : ∀ rs : List (StoreState × Nat), (∀ r ∈ rs, r.1.cities = c0) →
        renderSequence start rs = start := by
      intro rs
      induction rs with
      | nil => intro _; rfl
      | cons r rest ih =>
          intro hmem
          have h1 : r.1.cities = c0 := hmem r (List.mem_cons_self r rest)
          have hstep : renderProvider (some start) r.1 r.2 = start := by
            show ({ getCity := useCallback (some start.getCity) r.1.cities r.2
                    handleCityClick :=
                      useCallback (some start.handleCityClick) r.1.cities (r.2 + 1)
                    setSelectedCityId :=
                      useCallback (some start.setSelectedCityId) r.1.cities (r.2 + 2) }
                  : ProviderCells) = start
            rw [useCallback_keep _ _ _ (hg.trans h1.symm),
              useCallback_keep _ _ _ (hh.trans h1.symm),
              useCallback_keep _ _ _ (hs.trans h1.symm)]
          show renderSequence (renderProvider (some start) r.1 r.2) rest = start
          rw [hstep]
          exact ih (fun x hx => hmem x (List.mem_cons_of_mem _ hx))
    exact key renders hr
  · intro prev s fresh hne heq
    have hkeep : (renderProvider (some prev) s fresh).getCity = prev.getCity :=
      useCallback_keep prev.getCity s.cities fresh heq.symm
    exact hne (congrArg CallbackCell.fnId hkeep)

/-- Cells of a provider render whose dependency snapshot is `[lisbon]`. -/
def cellsStart : ProviderCells :=
  { getCity := { deps := [lisbon], fnId := 0 }
    handleCityClick := { deps := [lisbon], fnId := 1 }
    setSelectedCityId := { deps := [lisbon], fnId := 2 } }

/-- C6 witness: two further renders that change only `isLoading` and
`error` keep all three callback cells of a concrete provider. -/
theorem getCity_referential_stability_witness :
    renderSequence cellsStart
      [({ initialState with cities := [lisbon], isLoading := false }, 10),
       ({ initialState with cities := [lisbon], error := some "e" }, 20)] = cellsStart :=
  (getCity_referential_stability [lisbon] cellsStart
    [({ initialState with cities := [lisbon], isLoading := false }, 10),
     ({ initialState with cities := [lisbon], error := some "e" }, 20)]
    rfl rfl rfl (by simp)).1

end WorldWise
